import Mathlib

/-
Verification of the backup/restore orchestration engine of infrahub-backup.

The definitions below are a shallow embedding of the Go source:
pure string processing is translated directly, and the effectful
orchestration functions are translated into functions over explicit
environments describing the outcome of each remote command, returning a
trace of the steps they performed together with an optional error.
-/

/-- Association-list lookup keyed by strings (the Go maps used by the tool
are modelled as association lists). -/
def lookupAssoc {α : Type} : List (String × α) → String → Option α
  | [], _ => none
  | (k2, v) :: rest, k => if k2 = k then some v else lookupAssoc rest k

/-- Association-list update: overwrite the first binding of the key, or
append a new binding. -/
def setAssoc {α : Type} : List (String × α) → String → α → List (String × α)
  | [], k, v => [(k, v)]
  | (k2, v2) :: rest, k, v =>
    if k2 = k then (k, v) :: rest else (k2, v2) :: setAssoc rest k v

/-- ASCII lowering of one character (the strings the tool lowercases are
plain ASCII). -/
def asciiLowerChar (c : Char) : Char :=
  if 65 ≤ c.toNat ∧ c.toNat ≤ 90 then Char.ofNat (c.toNat + 32) else c

/-- Go strings.ToLower restricted to ASCII. -/
def strToLower (s : String) : String := ⟨s.data.map asciiLowerChar⟩

/-- Go strings.EqualFold restricted to the ASCII case folding the tool
relies on (edition strings are plain ASCII). -/
def equalFold (a b : String) : Bool := strToLower a = strToLower b

/-- Go strings.HasPrefix over the underlying character lists. -/
def strStartsWith (s pre : String) : Bool := pre.data.isPrefixOf s.data

/-- Edition constant from backup.go. -/
def neo4jEditionEnterprise : String := "enterprise"

/-- Edition constant from backup.go. -/
def neo4jEditionCommunity : String := "community"

/-- Edition resolution performed by RestoreBackup (backup.go lines 359-373)
when runtime edition detection succeeded: a community backup on an
enterprise runtime restores with the community method, an enterprise backup
on a community runtime is a hard error, and otherwise the lowercased
detected edition is used. -/
def resolveRestoreEdition (metadataEdition detectedEdition : String) :
    Except String String :=
  let neo4jEdition := strToLower metadataEdition
  if neo4jEdition = neo4jEditionCommunity
      ∧ strToLower detectedEdition = neo4jEditionEnterprise then
    Except.ok neo4jEditionCommunity
  else if neo4jEdition = neo4jEditionEnterprise
      ∧ strToLower detectedEdition = neo4jEditionCommunity then
    Except.error "cannot restore Enterprise backup on Community edition Neo4j"
  else
    Except.ok (strToLower detectedEdition)

/-- Edition resolution including the detection-failure branch of
RestoreBackup (backup.go lines 360-362): when detection fails the restore
defaults to the community workflow. `detected` is none when
detectNeo4jEdition returned an error. -/
def resolveRestoreEditionFull (metadataEdition : String)
    (detected : Option String) : Except String String :=
  match detected with
  | none => Except.ok neo4jEditionCommunity
  | some d => resolveRestoreEdition metadataEdition d

/-- The two capture strategies backupDatabase can dispatch to. -/
inductive BackupRoute where
  | community
  | enterprise
deriving DecidableEq, Repr

/-- backupDatabase (backup.go lines 584-592): switch on the lowercased
edition string; the community case uses the offline dump path and every
other value (the default case) uses the enterprise online-backup path. -/
def backupDatabaseRoute (neo4jEdition : String) : BackupRoute :=
  if strToLower neo4jEdition = neo4jEditionCommunity then BackupRoute.community
  else BackupRoute.enterprise

/-- CreateBackup (backup.go line 84): when detectNeo4jEdition fails it
returns the empty string together with the error, and CreateBackup keeps
that empty string as the edition for the rest of the run. -/
def editionAfterFailedDetection : String := ""

/-- CreateBackup (backup.go line 91): the community pre-stop of the
application services happens iff strings.EqualFold(edition, "community"). -/
def isCommunityEditionCheck (edition : String) : Bool :=
  equalFold edition neo4jEditionCommunity

/-- The two embedded watchdog helper binaries (taskmanager.go embeds,
backup.go lines 756-765). -/
inductive WatchdogBinary where
  | linuxAMD64
  | linuxARM64
deriving DecidableEq, Repr

/-- selectWatchdogBinary (backup.go lines 756-765): switch on the
lowercased architecture string with exactly two accepted families and an
explicit error default. -/
def selectWatchdogBinary (arch : String) : Except String WatchdogBinary :=
  if strToLower arch = "x86_64" ∨ strToLower arch = "amd64" then
    Except.ok WatchdogBinary.linuxAMD64
  else if strToLower arch = "aarch64" ∨ strToLower arch = "arm64" then
    Except.ok WatchdogBinary.linuxARM64
  else
    Except.error ("unsupported architecture for watchdog: " ++ arch)

/-- detectNeo4jArchitecture (backup.go lines 744-754): trims the uname
output and rejects an empty result; the command outcome is the input. -/
def detectNeo4jArchitecture (unameResult : Option String) :
    Except String String :=
  match unameResult with
  | none => Except.error "failed to detect neo4j architecture"
  | some output =>
    let arch := output.trim
    if arch = "" then Except.error "empty architecture string"
    else Except.ok arch

/-- Mirrors the BackupMetadata struct (backup.go lines 62-72); the
checksums map is modelled as an association list from archive-relative path
to SHA-256 digest. -/
structure BackupMetadata where
  metadataVersion : Int
  backupID : String
  createdAt : String
  toolVersion : String
  infrahubVersion : String
  components : List String
  checksums : List (String × String)
  neo4jEdition : String
deriving DecidableEq, Repr

/-- Contents of a directory tree: relative path of each regular file paired
with its SHA-256 digest. calculateSHA256 is modelled as total, so hashing a
present file yields the digest stored here. -/
abbrev FileSys := List (String × String)

/-- Look up the digest of a file; none models os.Stat reporting that the
file does not exist. -/
def lookupFile (fs : FileSys) (path : String) : Option String :=
  lookupAssoc fs path

/-- The observable steps of the restore phase, in the order RestoreBackup
performs them. -/
inductive RestoreStep where
  | validateChecksum (path : String)
  | wipeTransientData
  | stopAppContainers
  | restorePostgreSQL
  | restartDependencies
  | restoreNeo4j
  | startServices
deriving DecidableEq, Repr

/-- The destructive restore actions named by the spec: transient-data wipe,
service stop and the two database restores. -/
def RestoreStep.destructive : RestoreStep → Bool
  | RestoreStep.wipeTransientData => true
  | RestoreStep.stopAppContainers => true
  | RestoreStep.restorePostgreSQL => true
  | RestoreStep.restoreNeo4j => true
  | _ => false

/-- The checksum validation loop of RestoreBackup (backup.go lines
389-405): every entry except prefect.dump is checked against the extracted
file; a missing file or digest mismatch aborts with an error. Returns the
validation steps performed together with the first error. -/
def validateChecksumLoop (workFiles : FileSys) :
    List (String × String) → List RestoreStep × Option String
  | [] => ([], none)
  | (relPath, expectedSum) :: rest =>
    if relPath = "prefect.dump" then validateChecksumLoop workFiles rest
    else
      match lookupFile workFiles relPath with
      | none => ([], some ("missing backup file: " ++ relPath))
      | some actual =>
        if actual = expectedSum then
          (RestoreStep.validateChecksum relPath
              :: (validateChecksumLoop workFiles rest).1,
            (validateChecksumLoop workFiles rest).2)
        else ([], some ("checksum mismatch for " ++ relPath))

/-- The prefect.dump validation of RestoreBackup (backup.go lines 431-443):
performed only when validatePrefect is set; requires a metadata entry and a
matching digest. -/
def prefectCheck (validatePrefect : Bool) (metadata : BackupMetadata)
    (workFiles : FileSys) : Except String (List RestoreStep) :=
  if validatePrefect then
    match lookupAssoc metadata.checksums "prefect.dump" with
    | none => Except.error "missing checksum for prefect.dump in metadata"
    | some expectedSum =>
      match lookupFile workFiles "prefect.dump" with
      | none => Except.error "missing backup file: prefect.dump"
      | some actual =>
        if actual = expectedSum then
          Except.ok [RestoreStep.validateChecksum "prefect.dump"]
        else Except.error "checksum mismatch for prefect.dump"
  else Except.ok []

/-- The part of RestoreBackup after the non-prefect checksum loop succeeded
(backup.go lines 407-481): task-manager availability checks, the optional
prefect.dump validation, then the destructive phase. The remote operations
of the destructive phase are modelled as succeeding; the trace records the
steps that are reached. -/
def restoreAfterValidation (metadata : BackupMetadata) (workFiles : FileSys)
    (excludeTaskManager : Bool) (vtrace : List RestoreStep) :
    List RestoreStep × Option String :=
  let taskManagerIncluded :=
    metadata.components.contains "task-manager-db"
    || (lookupAssoc metadata.checksums "prefect.dump").isSome
  let prefectExists := (lookupFile workFiles "prefect.dump").isSome
  let shouldRestoreTaskManager := taskManagerIncluded && !excludeTaskManager
  let validatePrefect := shouldRestoreTaskManager && prefectExists
  if taskManagerIncluded && !prefectExists && !excludeTaskManager then
    (vtrace,
      some "backup metadata includes task manager database but prefect.dump is missing")
  else
    match prefectCheck validatePrefect metadata workFiles with
    | Except.error e => (vtrace, some e)
    | Except.ok ptrace =>
      (vtrace ++ ptrace
        ++ [RestoreStep.wipeTransientData, RestoreStep.stopAppContainers]
        ++ (if validatePrefect then [RestoreStep.restorePostgreSQL] else [])
        ++ [RestoreStep.restartDependencies, RestoreStep.restoreNeo4j,
            RestoreStep.startServices],
        none)

/-- RestoreBackup from the point where the archive has been extracted and
the metadata parsed (backup.go lines 359-482): edition resolution, checksum
validation, task-manager determination, then the destructive phase.
`detected` is none when runtime edition detection failed. -/
def restoreBackupPhase (metadata : BackupMetadata) (detected : Option String)
    (workFiles : FileSys) (excludeTaskManager : Bool) :
    List RestoreStep × Option String :=
  match resolveRestoreEditionFull metadata.neo4jEdition detected with
  | Except.error e => ([], some e)
  | Except.ok _ =>
    match validateChecksumLoop workFiles metadata.checksums with
    | (vtrace, some e) => (vtrace, some e)
    | (vtrace, none) =>
      restoreAfterValidation metadata workFiles excludeTaskManager vtrace

/-- The checksum assembly of CreateBackup (backup.go lines 170-207): every
regular file under the database/ capture directory gets an entry keyed by
its backup-root-relative path, and prefect.dump gets an entry when the task
manager is included and the dump file exists. `backupFiles` holds the
backup-root-relative files present on disk at archive time. -/
def createBackupChecksums (backupFiles : FileSys)
    (excludeTaskManager : Bool) : List (String × String) :=
  backupFiles.filter (fun pr => strStartsWith pr.1 "database/")
  ++ (if excludeTaskManager = false then
        match lookupAssoc backupFiles "prefect.dump" with
        | some sum => [("prefect.dump", sum)]
        | none => []
      else [])

/-- Whether an Except value is a success. -/
def exceptIsOk {ε α : Type} : Except ε α → Bool
  | Except.ok _ => true
  | Except.error _ => false

/-- C2 counterexample input: a backup whose metadata declares the task
manager component with a prefect.dump checksum entry. -/
def c2Metadata : BackupMetadata :=
  { metadataVersion := 2025111200, backupID := "b", createdAt := "t",
    toolVersion := "v", infrahubVersion := "i",
    components := ["database", "task-manager-db"],
    checksums := [("prefect.dump", "aaa")], neo4jEdition := "community" }

/-- C2 counterexample input: extracted files where prefect.dump hashes to a
digest different from the metadata entry. -/
def c2Files : FileSys := [("prefect.dump", "bbb")]

/-- C4 counterexample input: metadata covering one database file. -/
def c4Metadata : BackupMetadata :=
  { metadataVersion := 2025111200, backupID := "b", createdAt := "t",
    toolVersion := "v", infrahubVersion := "i",
    components := ["database"],
    checksums := [("database/neo4j.dump", "h1")], neo4jEdition := "community" }

/-- C4 counterexample input: extracted files with one extra file under the
capture directory that has no checksum entry. -/
def c4Files : FileSys :=
  [("database/neo4j.dump", "h1"), ("database/stray.bin", "zz")]

/-- C10 witness input: metadata declaring the task manager with a
prefect.dump entry alongside a database file. -/
def c10Metadata : BackupMetadata :=
  { metadataVersion := 2025111200, backupID := "b", createdAt := "t",
    toolVersion := "v", infrahubVersion := "i",
    components := ["database", "task-manager-db"],
    checksums := [("database/neo4j.dump", "h1"), ("prefect.dump", "good")],
    neo4jEdition := "community" }

/-- C10 witness input: extracted files where prefect.dump is present but
mismatches its metadata digest. -/
def c10Files : FileSys :=
  [("database/neo4j.dump", "h1"), ("prefect.dump", "bad")]

/-- Abstracts findWorkloadResource (environment_kubernetes.go lines
198-243): the label-selector and substring-in-name search over the cluster
controllers, as a map from logical service name to the controller kind and
resource name it resolves to, or none when the whole search fails. -/
structure ClusterEnv where
  resolveWorkload : String → Option (String × String)

/-- Cluster-side state: spec.replicas of each workload, keyed by the same
kind/name string Start and Stop use as cache key. -/
structure KubeWorld where
  replicas : List (String × Int)
deriving DecidableEq, Repr

/-- The two caches of KubernetesBackend (environment_kubernetes.go lines
13-19): logical service name to pod name, and kind/name to the replica
count recorded before scaling to zero. -/
structure KubernetesBackendState where
  podCache : List (String × String)
  replicaCache : List (String × Int)
deriving DecidableEq, Repr

/-- The kind/resource key used for the replica cache (lines 120 and
142). -/
def cacheKey (kind resource : String) : String := kind ++ "/" ++ resource

/-- getReplicaCount (lines 186-196): read spec.replicas through kubectl;
unreadable when the workload is unknown to the cluster. -/
def getReplicaCount (w : KubeWorld) (kind resource : String) :
    Except String Int :=
  match lookupAssoc w.replicas (cacheKey kind resource) with
  | some n => Except.ok n
  | none => Except.error "failed to read replica count"

/-- scaleResource (lines 180-183): kubectl scale --replicas=n, modelled as
succeeding. -/
def scaleResource (w : KubeWorld) (kind resource : String) (replicas : Int) :
    KubeWorld :=
  ⟨setAssoc w.replicas (cacheKey kind resource) replicas⟩

/-- The loop of scaleServices (lines 167-177): scale each service's
workload; once every service has been handled, clear the pod cache; an
unresolvable service returns early, before the clear. -/
def scaleServicesLoop (env : ClusterEnv) (st : KubernetesBackendState)
    (w : KubeWorld) (replicas : Int) :
    List String → KubernetesBackendState × KubeWorld × Option String
  | [] => ({ st with podCache := [] }, w, none)
  | service :: rest =>
    match env.resolveWorkload service with
    | none => (st, w, some ("failed to resolve workload for " ++ service))
    | some (kind, resource) =>
      scaleServicesLoop env st (scaleResource w kind resource replicas)
        replicas rest

/-- scaleServices (lines 163-178): an empty service list returns at once,
leaving the pod cache untouched. -/
def scaleServices (env : ClusterEnv) (st : KubernetesBackendState)
    (w : KubeWorld) (services : List String) (replicas : Int) :
    KubernetesBackendState × KubeWorld × Option String :=
  match services with
  | [] => (st, w, none)
  | _ :: _ => scaleServicesLoop env st w replicas services

/-- The replica-recording step of Stop for one service (lines 136-146):
record the current replica count into the replica cache when the workload
resolves and the count is readable and positive; otherwise skip. -/
def recordReplicaCount (env : ClusterEnv) (w : KubeWorld)
    (acc : KubernetesBackendState) (service : String) :
    KubernetesBackendState :=
  match env.resolveWorkload service with
  | none => acc
  | some (kind, resource) =>
    match getReplicaCount w kind resource with
    | Except.ok count =>
      if count > 0 then
        { acc with replicaCache :=
            setAssoc acc.replicaCache (cacheKey kind resource) count }
      else acc
    | Except.error _ => acc

/-- KubernetesBackend.Stop (lines 134-148): record the current replica
counts, then scale every target to zero. -/
def kubeStop (env : ClusterEnv) (st : KubernetesBackendState) (w : KubeWorld)
    (services : List String) :
    KubernetesBackendState × KubeWorld × Option String :=
  scaleServices env (services.foldl (recordReplicaCount env w) st) w services 0

/-- KubernetesBackend.Start (lines 114-132): scale each target back up to
the cached count when a positive one was recorded, defaulting to one
replica, then clear the pod cache. -/
def kubeStart (env : ClusterEnv) (st : KubernetesBackendState) (w : KubeWorld) :
    List String → KubernetesBackendState × KubeWorld × Option String
  | [] => ({ st with podCache := [] }, w, none)
  | service :: rest =>
    match env.resolveWorkload service with
    | none => (st, w, some ("failed to resolve workload for " ++ service))
    | some (kind, resource) =>
      let replicas : Int :=
        match lookupAssoc st.replicaCache (cacheKey kind resource) with
        | some savedCount => if savedCount > 0 then savedCount else 1
        | none => 1
      kubeStart env st (scaleResource w kind resource replicas) rest

/-- Concrete cluster for the C5 witness: one logical service resolving to
a statefulset running three replicas. -/
def kenvC5 : ClusterEnv :=
  ⟨fun s => if s = "database" then some ("statefulset", "neo4j") else none⟩

/-- Replica state for the C5 witness. -/
def kworldC5 : KubeWorld := ⟨[("statefulset/neo4j", 3)]⟩

/-- Fresh backend state with empty caches (NewKubernetesBackend). -/
def kstEmpty : KubernetesBackendState := ⟨[], []⟩

/-- Concrete cluster for the C9 theorems. -/
def kenvC9 : ClusterEnv :=
  ⟨fun s => if s = "database" then some ("deployment", "infrahub-db") else none⟩

/-- Replica state for the C9 theorems. -/
def kworldC9 : KubeWorld := ⟨[("deployment/infrahub-db", 3)]⟩

/-- Backend state with a populated pod cache and replica cache for the C9
witness. -/
def kstC9 : KubernetesBackendState :=
  ⟨[("database", "pod-1")], [("deployment/infrahub-db", 5)]⟩

/-- Outcome of one external command: combined output on success, or the
output accompanying a failure. -/
inductive CmdResult where
  | ok (output : String)
  | fail (output : String)
deriving DecidableEq, Repr

/-- ASCII whitespace recognised by the trimming the tool performs. -/
def isSpaceChar (c : Char) : Bool :=
  c = ' ' ∨ c = '\t' ∨ c = '\n' ∨ c = '\r'

/-- Trim leading and trailing whitespace from a character list. -/
def trimChars (l : List Char) : List Char :=
  ((l.dropWhile isSpaceChar).reverse.dropWhile isSpaceChar).reverse

/-- Go strings.TrimSpace restricted to ASCII whitespace. -/
def strTrim (s : String) : String := ⟨trimChars s.data⟩

/-- nonEmptyLines (taskmanager.go lines 483-492): split on newlines, trim
each line, keep the non-empty ones. -/
def nonEmptyLines (output : String) : List String :=
  ((output.data.splitOn '\n').map
    (fun cs => (⟨trimChars cs⟩ : String))).filter (fun l => l ≠ "")

/-- Lexicographic comparison of character lists by code point, the order
sort.Strings uses for the ASCII names involved. -/
def strLeChars : List Char → List Char → Bool
  | [], _ => true
  | _ :: _, [] => false
  | c1 :: r1, c2 :: r2 =>
    if c1.toNat < c2.toNat then true
    else if c2.toNat < c1.toNat then false
    else strLeChars r1 r2

/-- String comparison used by the unique helper. -/
def strLe (a b : String) : Bool := strLeChars a.data b.data

/-- Insert a string into a sorted list. -/
def insertSorted (v : String) : List String → List String
  | [] => [v]
  | w :: rest => if strLe v w then v :: w :: rest else w :: insertSorted v rest

/-- Insertion sort over strings (the effect of sort.Strings). -/
def sortStrings : List String → List String
  | [] => []
  | v :: rest => insertSorted v (sortStrings rest)

/-- First pass of unique (taskmanager.go lines 503-517): drop later
duplicates, keeping first occurrences in order. -/
def dedupKeepFirst : List String → List String → List String
  | [], _ => []
  | v :: rest, seen =>
    if seen.contains v then dedupKeepFirst rest seen
    else v :: dedupKeepFirst rest (v :: seen)

/-- unique (taskmanager.go lines 503-517): deduplicate then sort; an empty
input is returned as is. -/
def unique (values : List String) : List String :=
  match values with
  | [] => values
  | _ => sortStrings (dedupKeepFirst values [])

/-- Go strings.Contains for the non-empty patterns the tool searches
for. -/
def containsSub (s pattern : String) : Bool :=
  s.data.tails.any (fun t => pattern.data.isPrefixOf t)

/-- The distinguishable outcomes of backend detection: the selected target
on success, the soft sentinels (CLI unavailable during auto-detection,
environment not found), and the hard errors. -/
inductive DetectOutcome where
  | selected (target : String)
  | cliUnavailable
  | environmentNotFound
  | permissionDenied
  | ambiguous (targets : List String)
  | verifyFailed (target : String)
  | hardCliUnavailable
  | listFailed
deriving DecidableEq, Repr

/-- The remote-command outcomes KubernetesBackend.Detect depends on:
whether kubectl version --client succeeds, the result of the namespace
discovery query, whether the verification query against a given namespace
succeeds, and the operator-supplied namespace (empty when unset). -/
structure KubeDetectEnv where
  kubectlClientOk : Bool
  listPods : CmdResult
  verifyNamespace : String → Bool
  explicitNamespace : String

/-- ListKubernetesNamespaces (kubernetes_utils.go lines 38-51): on failure,
output mentioning forbidden or cannot list is a permission error directing
the operator to set the namespace, any other failure is the soft not-found
sentinel; on success the namespaces are the unique non-empty lines. -/
def ListKubernetesNamespaces (r : CmdResult) :
    Except DetectOutcome (List String) :=
  match r with
  | CmdResult.fail output =>
    if containsSub (strToLower output) "forbidden"
        || containsSub (strToLower output) "cannot list" then
      Except.error DetectOutcome.permissionDenied
    else Except.error DetectOutcome.environmentNotFound
  | CmdResult.ok output => Except.ok (unique (nonEmptyLines output))

/-- KubernetesBackend.Detect (environment_kubernetes.go lines 38-66):
kubectl availability check, namespace discovery, then either verification
of the explicit namespace or the zero/one/many disambiguation. -/
def kubernetesDetect (env : KubeDetectEnv) : DetectOutcome :=
  if env.kubectlClientOk = false then DetectOutcome.cliUnavailable
  else
    match ListKubernetesNamespaces env.listPods with
    | Except.error e => e
    | Except.ok namespaces =>
      if env.explicitNamespace ≠ "" then
        if env.verifyNamespace env.explicitNamespace then
          DetectOutcome.selected env.explicitNamespace
        else DetectOutcome.verifyFailed env.explicitNamespace
      else
        match namespaces with
        | [] => DetectOutcome.environmentNotFound
        | [ns] => DetectOutcome.selected ns
        | _ => DetectOutcome.ambiguous namespaces

/-- The command outcomes DockerBackend.Detect depends on (part_004 lines
27-63): docker CLI availability, the ListDockerProjects result
(abstracted), a verification probe for a given project, and the
operator-supplied project name (empty when unset). -/
structure DockerDetectEnv where
  dockerOk : Bool
  explicitProject : String
  listProjects : Except Unit (List String)
  verifyProject : String → Bool

/-- DockerBackend.Detect (part_004 lines 27-63): an unavailable CLI is a
hard error when a project was supplied and the soft sentinel otherwise;
with an explicit project, membership in the discovered list or a direct
compose ps probe selects it; without one, the zero/one/many
disambiguation applies. -/
def dockerDetect (env : DockerDetectEnv) : DetectOutcome :=
  if env.dockerOk = false then
    if env.explicitProject ≠ "" then DetectOutcome.hardCliUnavailable
    else DetectOutcome.cliUnavailable
  else
    match env.listProjects with
    | Except.error _ => DetectOutcome.listFailed
    | Except.ok projects =>
      if env.explicitProject ≠ "" then
        if projects.contains env.explicitProject then
          DetectOutcome.selected env.explicitProject
        else if env.verifyProject env.explicitProject then
          DetectOutcome.selected env.explicitProject
        else DetectOutcome.verifyFailed env.explicitProject
      else
        match projects with
        | [] => DetectOutcome.environmentNotFound
        | [p] => DetectOutcome.selected p
        | _ => DetectOutcome.ambiguous projects

/-- C6 witness environment: zero discovered namespaces. -/
def kenvZero : KubeDetectEnv := ⟨true, CmdResult.ok "", fun _ => true, ""⟩

/-- C6 witness environment: exactly one discovered namespace. -/
def kenvOne : KubeDetectEnv :=
  ⟨true, CmdResult.ok "infrahub\n", fun _ => true, ""⟩

/-- C6 witness environment: two discovered namespaces, no explicit one. -/
def kenvMany : KubeDetectEnv :=
  ⟨true, CmdResult.ok "alpha\nbeta\n", fun _ => true, ""⟩

/-- C6 witness environment: two discovered namespaces with an explicit one
that verifies. -/
def kenvExpl : KubeDetectEnv :=
  ⟨true, CmdResult.ok "alpha\nbeta\n", fun ns => ns = "infrahub", "infrahub"⟩

/-- C6 witness environment: two discovered compose projects, no explicit
one. -/
def denvMany : DockerDetectEnv :=
  ⟨true, "", Except.ok ["p1", "p2"], fun _ => false⟩

/-- C6 witness environment: explicit project present in the discovered
list. -/
def denvExpl : DockerDetectEnv :=
  ⟨true, "proj", Except.ok ["other", "proj"], fun _ => false⟩

/-- The command outcomes the community-edition freeze workflows depend on
(backup.go lines 622-727 and 1181-1230). -/
structure CommunityEnv where
  pidReadOk : Bool
  freezeOk : Bool
  mkdirOk : Bool
  dumpOk : Bool
  copyOk : Bool
  loadOk : Bool
  migrateOk : Bool
  contDeliveryOk : Bool
deriving DecidableEq, Repr

/-- Observable events of the community workflows. -/
inductive CommunityEvent where
  | frozeProcess
  | ranDump
  | ranCopy
  | ranLoad
  | ranMigrate
  | removedWatchdogArtifacts
  | attemptedResume
deriving DecidableEq, Repr

/-- Error outcomes of the community workflows. -/
inductive CommunityError where
  | pidReadFailed
  | freezeFailed
  | mkdirFailed
  | dumpFailed
  | copyFailed
  | loadFailed
  | migrateFailed
  | resumeFailed
deriving DecidableEq, Repr

/-- The deferred cleanup shared by backupNeo4jCommunity (backup.go lines
689-699) and restoreNeo4jCommunity (lines 1194-1207): remove the watchdog
artifacts (failures only logged), then send SIGCONT; a delivery failure
becomes the returned error only when the body finished without one. -/
def communityDeferredCleanup (env : CommunityEnv)
    (trace : List CommunityEvent) (bodyErr : Option CommunityError) :
    List CommunityEvent × Option CommunityError :=
  let fullTrace := trace
    ++ [CommunityEvent.removedWatchdogArtifacts, CommunityEvent.attemptedResume]
  if env.contDeliveryOk = false then
    match bodyErr with
    | none => (fullTrace, some CommunityError.resumeFailed)
    | some e => (fullTrace, some e)
  else (fullTrace, bodyErr)

/-- backupNeo4jCommunity (backup.go lines 676-727): read the PID, run the
freeze protocol (stopNeo4jCommunity), then dump and copy; every exit after
the freeze goes through the deferred cleanup. -/
def backupNeo4jCommunity (env : CommunityEnv) :
    List CommunityEvent × Option CommunityError :=
  if env.pidReadOk = false then ([], some CommunityError.pidReadFailed)
  else if env.freezeOk = false then ([], some CommunityError.freezeFailed)
  else
    let bodyResult : List CommunityEvent × Option CommunityError :=
      if env.mkdirOk = false then ([], some CommunityError.mkdirFailed)
      else if env.dumpOk = false then
        ([CommunityEvent.ranDump], some CommunityError.dumpFailed)
      else if env.copyOk = false then
        ([CommunityEvent.ranDump, CommunityEvent.ranCopy],
          some CommunityError.copyFailed)
      else ([CommunityEvent.ranDump, CommunityEvent.ranCopy], none)
    communityDeferredCleanup env
      (CommunityEvent.frozeProcess :: bodyResult.1) bodyResult.2

/-- restoreNeo4jCommunity (backup.go lines 1181-1230): read the PID, run
the freeze protocol, then load the dump and optionally migrate the store
format; every exit after the freeze goes through the deferred cleanup. -/
def restoreNeo4jCommunity (env : CommunityEnv)
    (restoreMigrateFormat : Bool) :
    List CommunityEvent × Option CommunityError :=
  if env.pidReadOk = false then ([], some CommunityError.pidReadFailed)
  else if env.freezeOk = false then ([], some CommunityError.freezeFailed)
  else
    let bodyResult : List CommunityEvent × Option CommunityError :=
      if env.loadOk = false then
        ([CommunityEvent.ranLoad], some CommunityError.loadFailed)
      else if restoreMigrateFormat && env.migrateOk = false then
        ([CommunityEvent.ranLoad, CommunityEvent.ranMigrate],
          some CommunityError.migrateFailed)
      else if restoreMigrateFormat then
        ([CommunityEvent.ranLoad, CommunityEvent.ranMigrate], none)
      else ([CommunityEvent.ranLoad], none)
    communityDeferredCleanup env
      (CommunityEvent.frozeProcess :: bodyResult.1) bodyResult.2

/-- C8 witness environment: the capture succeeds in full but SIGCONT
delivery fails. -/
def cenvResumeFail : CommunityEnv :=
  ⟨true, true, true, true, true, true, true, false⟩

/-- C1: the restore edition resolution satisfies the compatibility matrix:
an enterprise backup against a community runtime is an error, a community
backup against an enterprise runtime resolves to community, and resolving
any edition against the same edition returns that edition. -/
theorem C1_edition_matrix :
    resolveRestoreEdition "enterprise" "community"
      = Except.error "cannot restore Enterprise backup on Community edition Neo4j"
    ∧ resolveRestoreEdition "community" "enterprise" = Except.ok "community"
    ∧ resolveRestoreEdition "enterprise" "enterprise" = Except.ok "enterprise"
    ∧ resolveRestoreEdition "community" "community" = Except.ok "community" := by
  refine ⟨rfl, rfl, rfl, rfl⟩

/-- C3 counterexample: after a failed edition detection the backup keeps
the empty edition string, which routes database capture to the enterprise
path (not the community one) and skips the community pre-stop check, so the
claim that both backup and restore default to the community workflow is
false on the backup side. -/
theorem C3_counterexample :
    backupDatabaseRoute editionAfterFailedDetection ≠ BackupRoute.community
    ∧ backupDatabaseRoute editionAfterFailedDetection = BackupRoute.enterprise
    ∧ isCommunityEditionCheck editionAfterFailedDetection = false := by
  refine ⟨by decide, by decide, by decide⟩

/-- C3 (amended): when edition detection fails, the restore defaults to the
community workflow, but the backup proceeds with the empty edition string,
which routes the database capture to the enterprise (default) path and
skips the community-specific service pre-stop. -/
theorem C3_amended :
    (∀ metadataEdition : String,
      resolveRestoreEditionFull metadataEdition none
        = Except.ok neo4jEditionCommunity)
    ∧ backupDatabaseRoute editionAfterFailedDetection = BackupRoute.enterprise
    ∧ isCommunityEditionCheck editionAfterFailedDetection = false := by
  refine ⟨fun _ => rfl, by decide, by decide⟩

/-- C7: watchdog binary selection accepts exactly the x86_64/amd64 and
aarch64/arm64 families case-insensitively and returns an explicit
unsupported-architecture error for every other architecture string. -/
theorem C7_watchdog_selection (arch : String) :
    ((strToLower arch = "x86_64" ∨ strToLower arch = "amd64") →
      selectWatchdogBinary arch = Except.ok WatchdogBinary.linuxAMD64)
    ∧ ((strToLower arch = "aarch64" ∨ strToLower arch = "arm64") →
      selectWatchdogBinary arch = Except.ok WatchdogBinary.linuxARM64)
    ∧ (strToLower arch ≠ "x86_64" → strToLower arch ≠ "amd64" →
      strToLower arch ≠ "aarch64" → strToLower arch ≠ "arm64" →
      selectWatchdogBinary arch
        = Except.error ("unsupported architecture for watchdog: " ++ arch)) := by
  refine ⟨?_, ?_, ?_⟩
  · intro h
    simp [selectWatchdogBinary, h]
  · intro h
    have hne : ¬ (strToLower arch = "x86_64" ∨ strToLower arch = "amd64") := by
      rcases h with h | h <;> simp [h]
    simp [selectWatchdogBinary, hne, h]
  · intro h1 h2 h3 h4
    simp [selectWatchdogBinary, h1, h2, h3, h4]

/-- C7 witness: selection at concrete architecture strings, including a
mixed-case accepted one and a rejected one. -/
theorem C7_watchdog_selection_witness :
    selectWatchdogBinary "ARM64" = Except.ok WatchdogBinary.linuxARM64
    ∧ selectWatchdogBinary "X86_64" = Except.ok WatchdogBinary.linuxAMD64
    ∧ selectWatchdogBinary "riscv64"
      = Except.error "unsupported architecture for watchdog: riscv64" := by
  refine ⟨(C7_watchdog_selection "ARM64").2.1 (Or.inr (by decide)),
    (C7_watchdog_selection "X86_64").1 (Or.inl (by decide)),
    (C7_watchdog_selection "riscv64").2.2
      (by decide) (by decide) (by decide) (by decide)⟩

theorem lookupAssoc_isSome_of_mem {α : Type} (pr : String × α) :
    ∀ l : List (String × α), pr ∈ l → (lookupAssoc l pr.1).isSome = true := by
  intro l
  induction l with
  | nil => intro h; cases h
  | cons hd tl ih =>
    intro h
    obtain ⟨k2, v2⟩ := hd
    rcases List.mem_cons.mp h with h | h
    · subst h
      simp [lookupAssoc]
    · by_cases hk : k2 = pr.1
      · simp [lookupAssoc, hk]
      · simp [lookupAssoc, hk, ih h]

theorem lookupAssoc_mem {α : Type} (k : String) (v : α) :
    ∀ l : List (String × α), lookupAssoc l k = some v → (k, v) ∈ l := by
  intro l
  induction l with
  | nil => intro h; simp [lookupAssoc] at h
  | cons hd tl ih =>
    obtain ⟨k2, v2⟩ := hd
    intro h
    by_cases hk : k2 = k
    · subst hk
      simp [lookupAssoc] at h
      subst h
      exact List.mem_cons_self _ _
    · simp [lookupAssoc, hk] at h
      exact List.mem_cons_of_mem _ (ih h)

theorem lookupAssoc_append_isSome_left {α : Type} (l1 l2 : List (String × α))
    (k : String) (h : (lookupAssoc l1 k).isSome = true) :
    (lookupAssoc (l1 ++ l2) k).isSome = true := by
  induction l1 with
  | nil => simp [lookupAssoc] at h
  | cons hd tl ih =>
    obtain ⟨k2, v2⟩ := hd
    by_cases hk : k2 = k
    · simp [lookupAssoc, hk]
    · simp [lookupAssoc, hk] at h ⊢
      exact ih h

theorem lookupAssoc_append_isSome_right {α : Type} (l1 l2 : List (String × α))
    (k : String) (h : (lookupAssoc l2 k).isSome = true) :
    (lookupAssoc (l1 ++ l2) k).isSome = true := by
  induction l1 with
  | nil => simpa [lookupAssoc] using h
  | cons hd tl ih =>
    obtain ⟨k2, v2⟩ := hd
    by_cases hk : k2 = k
    · simp [lookupAssoc, hk]
    · simp [lookupAssoc, hk]
      exact ih

theorem validateChecksumLoop_nondestructive (workFiles : FileSys) :
    ∀ l : List (String × String), ∀ s ∈ (validateChecksumLoop workFiles l).1,
      s.destructive = false := by
  intro l
  induction l with
  | nil => simp [validateChecksumLoop]
  | cons hd tl ih =>
    obtain ⟨relPath, expectedSum⟩ := hd
    by_cases hp : relPath = "prefect.dump"
    · simpa [validateChecksumLoop, hp] using ih
    · cases hf : lookupFile workFiles relPath with
      | none => simp [validateChecksumLoop, hp, hf]
      | some actual =>
        by_cases ha : actual = expectedSum
        · intro s hs
          simp [validateChecksumLoop, hp, hf, ha] at hs
          rcases hs with rfl | hs
          · rfl
          · exact ih s hs
        · simp [validateChecksumLoop, hp, hf, ha]

theorem validateChecksumLoop_not_prefect (workFiles : FileSys) :
    ∀ l : List (String × String),
      RestoreStep.validateChecksum "prefect.dump"
        ∉ (validateChecksumLoop workFiles l).1 := by
  intro l
  induction l with
  | nil => simp [validateChecksumLoop]
  | cons hd tl ih =>
    obtain ⟨relPath, expectedSum⟩ := hd
    by_cases hp : relPath = "prefect.dump"
    · simpa [validateChecksumLoop, hp] using ih
    · cases hf : lookupFile workFiles relPath with
      | none => simp [validateChecksumLoop, hp, hf]
      | some actual =>
        by_cases ha : actual = expectedSum
        · intro hmem
          simp [validateChecksumLoop, hp, hf, ha] at hmem
          rcases hmem with heq | hmem
          · exact hp heq.symm
          · exact ih hmem
        · simp [validateChecksumLoop, hp, hf, ha]

theorem validateChecksumLoop_isSome (workFiles : FileSys) :
    ∀ (l : List (String × String)) (pr : String × String), pr ∈ l →
      pr.1 ≠ "prefect.dump" → lookupFile workFiles pr.1 ≠ some pr.2 →
      ((validateChecksumLoop workFiles l).2).isSome = true := by
  intro l
  induction l with
  | nil => intro pr h; cases h
  | cons hd tl ih =>
    intro pr hmem hne hbad
    obtain ⟨relPath, expectedSum⟩ := hd
    by_cases hp : relPath = "prefect.dump"
    · rcases List.mem_cons.mp hmem with heq | hmem2
      · subst heq
        exact absurd hp hne
      · simpa [validateChecksumLoop, hp] using ih pr hmem2 hne hbad
    · cases hf : lookupFile workFiles relPath with
      | none => simp [validateChecksumLoop, hp, hf]
      | some actual =>
        by_cases ha : actual = expectedSum
        · rcases List.mem_cons.mp hmem with heq | hmem2
          · subst heq
            exact absurd (by rw [hf, ha]) hbad
          · simp [validateChecksumLoop, hp, hf, ha]
            exact ih pr hmem2 hne hbad
        · simp [validateChecksumLoop, hp, hf, ha]

theorem validateChecksumLoop_none_of_all (workFiles : FileSys) :
    ∀ l : List (String × String),
      (∀ pr ∈ l, pr.1 ≠ "prefect.dump" → lookupFile workFiles pr.1 = some pr.2) →
      (validateChecksumLoop workFiles l).2 = none := by
  intro l
  induction l with
  | nil => intro _; rfl
  | cons hd tl ih =>
    intro hall
    obtain ⟨relPath, expectedSum⟩ := hd
    have htl := fun q hq => hall q (List.mem_cons_of_mem _ hq)
    by_cases hp : relPath = "prefect.dump"
    · simpa [validateChecksumLoop, hp] using ih htl
    · have hf : lookupFile workFiles relPath = some expectedSum :=
        hall (relPath, expectedSum) (List.mem_cons_self _ _) hp
      simpa [validateChecksumLoop, hp, hf] using ih htl

theorem validateChecksumLoop_mem_of_all (workFiles : FileSys) :
    ∀ l : List (String × String),
      (∀ pr ∈ l, pr.1 ≠ "prefect.dump" → lookupFile workFiles pr.1 = some pr.2) →
      ∀ pr ∈ l, pr.1 ≠ "prefect.dump" →
        RestoreStep.validateChecksum pr.1 ∈ (validateChecksumLoop workFiles l).1 := by
  intro l
  induction l with
  | nil => intro _ pr h; cases h
  | cons hd tl ih =>
    intro hall pr hmem hne
    obtain ⟨relPath, expectedSum⟩ := hd
    have htl := fun q hq => hall q (List.mem_cons_of_mem _ hq)
    by_cases hp : relPath = "prefect.dump"
    · rcases List.mem_cons.mp hmem with heq | hmem2
      · subst heq
        exact absurd hp hne
      · simpa [validateChecksumLoop, hp] using ih htl pr hmem2 hne
    · have hf : lookupFile workFiles relPath = some expectedSum :=
        hall (relPath, expectedSum) (List.mem_cons_self _ _) hp
      rcases List.mem_cons.mp hmem with heq | hmem2
      · subst heq
        simp [validateChecksumLoop, hp, hf]
      · have hrec := ih htl pr hmem2 hne
        simp [validateChecksumLoop, hp, hf]
        right
        exact hrec

theorem restoreBackupPhase_isSome_of_badEntry (metadata : BackupMetadata)
    (detected : Option String) (workFiles : FileSys) (excludeTaskManager : Bool)
    (pr : String × String) (hmem : pr ∈ metadata.checksums)
    (hne : pr.1 ≠ "prefect.dump")
    (hbad : lookupFile workFiles pr.1 ≠ some pr.2) :
    ((restoreBackupPhase metadata detected workFiles excludeTaskManager).2).isSome = true := by
  have hsome := validateChecksumLoop_isSome workFiles metadata.checksums pr hmem hne hbad
  cases hres : resolveRestoreEditionFull metadata.neo4jEdition detected with
  | error e => simp [restoreBackupPhase, hres]
  | ok ed =>
    rcases hv : validateChecksumLoop workFiles metadata.checksums with ⟨vtrace, verr⟩
    rw [hv] at hsome
    cases verr with
    | none => simp at hsome
    | some e => simp [restoreBackupPhase, hres, hv]

theorem restoreBackupPhase_nondestructive_of_badEntry (metadata : BackupMetadata)
    (detected : Option String) (workFiles : FileSys) (excludeTaskManager : Bool)
    (pr : String × String) (hmem : pr ∈ metadata.checksums)
    (hne : pr.1 ≠ "prefect.dump")
    (hbad : lookupFile workFiles pr.1 ≠ some pr.2) :
    ∀ s ∈ (restoreBackupPhase metadata detected workFiles excludeTaskManager).1,
      s.destructive = false := by
  have hsome := validateChecksumLoop_isSome workFiles metadata.checksums pr hmem hne hbad
  have hnd := validateChecksumLoop_nondestructive workFiles metadata.checksums
  cases hres : resolveRestoreEditionFull metadata.neo4jEdition detected with
  | error e => simp [restoreBackupPhase, hres]
  | ok ed =>
    rcases hv : validateChecksumLoop workFiles metadata.checksums with ⟨vtrace, verr⟩
    rw [hv] at hsome hnd
    cases verr with
    | none => simp at hsome
    | some e =>
      intro s hs
      have h1 : (restoreBackupPhase metadata detected workFiles excludeTaskManager).1
          = vtrace := by
        simp [restoreBackupPhase, hres, hv]
      rw [h1] at hs
      exact hnd s hs

/-- C2 counterexample: with the task manager excluded, a restore whose
prefect.dump checksum entry mismatches the extracted file returns no error
and still reaches the destructive transient-data wipe, so the claim that
any mismatching checksum entry aborts before any destructive step is false
as stated. -/
theorem C2_counterexample :
    lookupFile c2Files "prefect.dump" ≠ some "aaa"
    ∧ ("prefect.dump", "aaa") ∈ c2Metadata.checksums
    ∧ (restoreBackupPhase c2Metadata (some "community") c2Files true).2 = none
    ∧ RestoreStep.wipeTransientData
        ∈ (restoreBackupPhase c2Metadata (some "community") c2Files true).1 := by
  refine ⟨by decide, by decide, by decide, by decide⟩

/-- C2 (amended): any checksum entry other than prefect.dump that refers to
a missing extracted file or mismatches its digest makes the restore return
an error, and no destructive step (wipe, service stop, database restore)
appears in the executed trace; the prefect.dump entry is only validated
when the task-manager database is to be restored and the dump file
exists. -/
theorem C2_checksum_guard (metadata : BackupMetadata) (detected : Option String)
    (workFiles : FileSys) (excludeTaskManager : Bool) (pr : String × String)
    (hmem : pr ∈ metadata.checksums) (hne : pr.1 ≠ "prefect.dump")
    (hbad : lookupFile workFiles pr.1 ≠ some pr.2) :
    ((restoreBackupPhase metadata detected workFiles excludeTaskManager).2).isSome = true
    ∧ ∀ s ∈ (restoreBackupPhase metadata detected workFiles excludeTaskManager).1,
        s.destructive = false := by
  exact ⟨restoreBackupPhase_isSome_of_badEntry metadata detected workFiles
      excludeTaskManager pr hmem hne hbad,
    restoreBackupPhase_nondestructive_of_badEntry metadata detected workFiles
      excludeTaskManager pr hmem hne hbad⟩

/-- C2 witness: a concrete restore with a mismatching database-file entry
errors out and executes no destructive step. -/
theorem C2_checksum_guard_witness :
    ((restoreBackupPhase c4Metadata (some "community") [("database/neo4j.dump", "TAMPERED")] false).2).isSome = true
    ∧ ∀ s ∈ (restoreBackupPhase c4Metadata (some "community") [("database/neo4j.dump", "TAMPERED")] false).1,
        s.destructive = false := by
  exact C2_checksum_guard c4Metadata (some "community")
    [("database/neo4j.dump", "TAMPERED")] false ("database/neo4j.dump", "h1")
    (by decide) (by decide) (by decide)

/-- C4 counterexample: an extracted file under the capture directory with
no checksum entry is not an error at restore time: the restore returns no
error and proceeds to the destructive steps, so the claim that the set must
be exact in both directions is false as stated. -/
theorem C4_counterexample :
    lookupAssoc c4Metadata.checksums "database/stray.bin" = none
    ∧ lookupFile c4Files "database/stray.bin" = some "zz"
    ∧ (restoreBackupPhase c4Metadata (some "community") c4Files false).2 = none
    ∧ RestoreStep.wipeTransientData
        ∈ (restoreBackupPhase c4Metadata (some "community") c4Files false).1 := by
  refine ⟨by decide, by decide, by decide, by decide⟩

/-- C4 (amended): at archive time every file under the database/ capture
directory gets a checksum entry and a prefect.dump on disk gets one when
the task manager is included, and every entry corresponds to a file on
disk; at restore time a non-prefect checksum entry whose file is missing is
an error, but an extracted file with no checksum entry is not detected. -/
theorem C4_checksum_exactness (backupFiles : FileSys) (excludeTaskManager : Bool)
    (metadata : BackupMetadata) (detected : Option String) (workFiles : FileSys)
    (excludeRestore : Bool) :
    (∀ pr ∈ backupFiles, strStartsWith pr.1 "database/" = true →
      (lookupAssoc (createBackupChecksums backupFiles excludeTaskManager) pr.1).isSome = true)
    ∧ (∀ sum : String, lookupAssoc backupFiles "prefect.dump" = some sum →
      (lookupAssoc (createBackupChecksums backupFiles false) "prefect.dump").isSome = true)
    ∧ (∀ pr ∈ createBackupChecksums backupFiles excludeTaskManager,
      (lookupFile backupFiles pr.1).isSome = true)
    ∧ (∀ pr ∈ metadata.checksums, pr.1 ≠ "prefect.dump" →
      lookupFile workFiles pr.1 = none →
      ((restoreBackupPhase metadata detected workFiles excludeRestore).2).isSome = true) := by
  refine ⟨?_, ?_, ?_, ?_⟩
  · intro pr hmem hpre
    have hf : pr ∈ backupFiles.filter (fun q => strStartsWith q.1 "database/") :=
      List.mem_filter.mpr ⟨hmem, hpre⟩
    exact lookupAssoc_append_isSome_left _ _ _
      (lookupAssoc_isSome_of_mem pr _ hf)
  · intro sum hsum
    apply lookupAssoc_append_isSome_right
    simp [hsum, lookupAssoc]
  · intro pr hmem
    rcases List.mem_append.mp hmem with h | h
    · exact lookupAssoc_isSome_of_mem pr _ (List.mem_of_mem_filter h)
    · cases excludeTaskManager with
      | true => simp at h
      | false =>
        cases hsum : lookupAssoc backupFiles "prefect.dump" with
        | none => simp [hsum] at h
        | some sum =>
          rw [hsum] at h
          simp at h
          subst h
          simp [lookupFile, hsum]
  · intro pr hmem hne hnone
    exact restoreBackupPhase_isSome_of_badEntry metadata detected workFiles
      excludeRestore pr hmem hne (by simp [hnone])

/-- C4 witness: at archive time the stray file does get an entry, and a
restore with a missing declared file errors out. -/
theorem C4_checksum_exactness_witness :
    (lookupAssoc (createBackupChecksums c4Files false) "database/stray.bin").isSome = true
    ∧ ((restoreBackupPhase c4Metadata (some "community") [] false).2).isSome = true := by
  have h := C4_checksum_exactness c4Files false c4Metadata (some "community") [] false
  exact ⟨h.1 ("database/stray.bin", "zz") (by decide) (by decide),
    h.2.2.2 ("database/neo4j.dump", "h1") (by decide) (by decide) (by decide)⟩

/-- C10: when the task manager is explicitly excluded, the prefect.dump
checksum entry is never validated (even when the component is declared and
the file is present and mismatching), every non-prefect entry is still
validated, and the restore proceeds to the destructive steps without a
PostgreSQL restore. -/
theorem C10_prefect_skipped (metadata : BackupMetadata) (detected : Option String)
    (workFiles : FileSys)
    (hall : ∀ pr ∈ metadata.checksums, pr.1 ≠ "prefect.dump" →
      lookupFile workFiles pr.1 = some pr.2)
    (hed : exceptIsOk (resolveRestoreEditionFull metadata.neo4jEdition detected) = true) :
    (restoreBackupPhase metadata detected workFiles true).2 = none
    ∧ RestoreStep.validateChecksum "prefect.dump"
        ∉ (restoreBackupPhase metadata detected workFiles true).1
    ∧ (∀ pr ∈ metadata.checksums, pr.1 ≠ "prefect.dump" →
        RestoreStep.validateChecksum pr.1
          ∈ (restoreBackupPhase metadata detected workFiles true).1)
    ∧ RestoreStep.wipeTransientData
        ∈ (restoreBackupPhase metadata detected workFiles true).1
    ∧ RestoreStep.restorePostgreSQL
        ∉ (restoreBackupPhase metadata detected workFiles true).1 := by
  have hnone := validateChecksumLoop_none_of_all workFiles metadata.checksums hall
  have hnd := validateChecksumLoop_nondestructive workFiles metadata.checksums
  have hnp := validateChecksumLoop_not_prefect workFiles metadata.checksums
  cases hres : resolveRestoreEditionFull metadata.neo4jEdition detected with
  | error e => rw [hres] at hed; simp [exceptIsOk] at hed
  | ok ed =>
    rcases hv : validateChecksumLoop workFiles metadata.checksums with ⟨vtrace, verr⟩
    rw [hv] at hnone hnd hnp
    simp at hnone
    subst hnone
    have hphase : restoreBackupPhase metadata detected workFiles true
        = restoreAfterValidation metadata workFiles true vtrace := by
      simp [restoreBackupPhase, hres, hv]
    have hafter : restoreAfterValidation metadata workFiles true vtrace
        = (vtrace ++ [RestoreStep.wipeTransientData, RestoreStep.stopAppContainers,
            RestoreStep.restartDependencies, RestoreStep.restoreNeo4j,
            RestoreStep.startServices], none) := by
      simp [restoreAfterValidation, prefectCheck]
    rw [hphase, hafter]
    refine ⟨rfl, ?_, ?_, ?_, ?_⟩
    · intro hmem
      rcases List.mem_append.mp hmem with h | h
      · exact hnp h
      · simp at h
    · intro pr hmem hne
      have := validateChecksumLoop_mem_of_all workFiles metadata.checksums hall pr hmem hne
      rw [hv] at this
      exact List.mem_append_left _ this
    · apply List.mem_append_right
      simp
    · intro hmem
      rcases List.mem_append.mp hmem with h | h
      · have := hnd _ h
        simp [RestoreStep.destructive] at this
      · simp at h

/-- C10 witness: a concrete excluded-task-manager restore with a declared
task-manager component and a present but mismatching prefect.dump proceeds
without validating it. -/
theorem C10_prefect_skipped_witness :
    (restoreBackupPhase c10Metadata (some "community") c10Files true).2 = none
    ∧ RestoreStep.validateChecksum "prefect.dump"
        ∉ (restoreBackupPhase c10Metadata (some "community") c10Files true).1
    ∧ RestoreStep.wipeTransientData
        ∈ (restoreBackupPhase c10Metadata (some "community") c10Files true).1 := by
  have h := C10_prefect_skipped c10Metadata (some "community") c10Files
    (by decide) (by decide)
  exact ⟨h.1, h.2.1, h.2.2.2.1⟩

theorem lookupAssoc_setAssoc_self {α : Type} (k : String) (v : α) :
    ∀ l : List (String × α), lookupAssoc (setAssoc l k v) k = some v := by
  intro l
  induction l with
  | nil => simp [setAssoc, lookupAssoc]
  | cons hd tl ih =>
    obtain ⟨k2, v2⟩ := hd
    by_cases hk : k2 = k
    · simp [setAssoc, hk, lookupAssoc]
    · simp [setAssoc, hk, lookupAssoc, ih]

theorem lookupAssoc_setAssoc_isSome {α : Type} (k k2 : String) (v : α) :
    ∀ l : List (String × α), (lookupAssoc l k2).isSome = true →
      (lookupAssoc (setAssoc l k v) k2).isSome = true := by
  intro l
  induction l with
  | nil => intro h; simp [lookupAssoc] at h
  | cons hd tl ih =>
    obtain ⟨k3, v3⟩ := hd
    intro h
    by_cases hk3 : k3 = k
    · by_cases hk2 : k = k2
      · simp [setAssoc, hk3, lookupAssoc, hk2]
      · have hk32 : ¬ k3 = k2 := by rw [hk3]; exact hk2
        simp [lookupAssoc, hk32] at h
        simp [setAssoc, hk3, lookupAssoc, hk2]
        exact h
    · by_cases hk2 : k3 = k2
      · have hk2k : ¬ k2 = k := by rw [← hk2]; exact hk3
        simp [setAssoc, hk3, lookupAssoc, hk2, hk2k]
      · simp [lookupAssoc, hk2] at h
        simp [setAssoc, hk3, lookupAssoc, hk2]
        exact ih h

theorem recordReplica_mono (env : ClusterEnv) (w : KubeWorld) (k : String) :
    ∀ (services : List String) (st : KubernetesBackendState),
      (lookupAssoc st.replicaCache k).isSome = true →
      (lookupAssoc
        ((services.foldl (recordReplicaCount env w) st)).replicaCache k).isSome
        = true := by
  intro services
  induction services with
  | nil => intro st h; exact h
  | cons svc rest ih =>
    intro st h
    rw [List.foldl_cons]
    apply ih
    cases h2 : env.resolveWorkload svc with
    | none => simpa [recordReplicaCount, h2] using h
    | some kr =>
      obtain ⟨kind, resource⟩ := kr
      cases h3 : getReplicaCount w kind resource with
      | ok count =>
        by_cases hc : count > 0
        · simp [recordReplicaCount, h2, h3, hc]
          exact lookupAssoc_setAssoc_isSome _ _ _ _ h
        · simpa [recordReplicaCount, h2, h3, hc] using h
      | error e => simpa [recordReplicaCount, h2, h3] using h

theorem scaleServicesLoop_state (env : ClusterEnv) (st : KubernetesBackendState)
    (replicas : Int) :
    ∀ (services : List String) (w : KubeWorld),
      ((scaleServicesLoop env st w replicas services).2.2 = none →
        (scaleServicesLoop env st w replicas services).1.podCache = [])
      ∧ (scaleServicesLoop env st w replicas services).1.replicaCache
          = st.replicaCache := by
  intro services
  induction services with
  | nil => intro w; exact ⟨fun _ => rfl, rfl⟩
  | cons svc rest ih =>
    intro w
    cases h2 : env.resolveWorkload svc with
    | none =>
      constructor
      · intro h
        simp [scaleServicesLoop, h2] at h
      · simp [scaleServicesLoop, h2]
    | some kr =>
      obtain ⟨kind, resource⟩ := kr
      constructor
      · intro h
        simp only [scaleServicesLoop, h2] at h ⊢
        exact (ih _).1 h
      · simp only [scaleServicesLoop, h2]
        exact (ih _).2

theorem kubeStart_state (env : ClusterEnv) (st : KubernetesBackendState) :
    ∀ (services : List String) (w : KubeWorld),
      ((kubeStart env st w services).2.2 = none →
        (kubeStart env st w services).1.podCache = [])
      ∧ (kubeStart env st w services).1.replicaCache = st.replicaCache := by
  intro services
  induction services with
  | nil => intro w; exact ⟨fun _ => rfl, rfl⟩
  | cons svc rest ih =>
    intro w
    cases h2 : env.resolveWorkload svc with
    | none =>
      constructor
      · intro h
        simp [kubeStart, h2] at h
      · simp [kubeStart, h2]
    | some kr =>
      obtain ⟨kind, resource⟩ := kr
      constructor
      · intro h
        simp only [kubeStart, h2] at h ⊢
        exact (ih _).1 h
      · simp only [kubeStart, h2]
        exact (ih _).2

/-- C5: for a service whose workload resolves and whose replica count is
readable and positive, Stop followed by Start restores that count, and
Start scales to exactly one replica when no prior count was recorded. -/
theorem C5_replica_restoration (env : ClusterEnv) (st : KubernetesBackendState)
    (w : KubeWorld) (svc kind resource : String) (n : Int)
    (hres : env.resolveWorkload svc = some (kind, resource))
    (hcount : lookupAssoc w.replicas (cacheKey kind resource) = some n)
    (hpos : 0 < n) :
    ((kubeStop env st w [svc]).2.2 = none
      ∧ (kubeStart env (kubeStop env st w [svc]).1
          (kubeStop env st w [svc]).2.1 [svc]).2.2 = none
      ∧ lookupAssoc (kubeStart env (kubeStop env st w [svc]).1
          (kubeStop env st w [svc]).2.1 [svc]).2.1.replicas
          (cacheKey kind resource) = some n)
    ∧ (lookupAssoc st.replicaCache (cacheKey kind resource) = none →
        lookupAssoc (kubeStart env st w [svc]).2.1.replicas
          (cacheKey kind resource) = some 1) := by
  have hstop : kubeStop env st w [svc]
      = (⟨[], setAssoc st.replicaCache (cacheKey kind resource) n⟩,
          scaleResource w kind resource 0, none) := by
    simp [kubeStop, scaleServices, scaleServicesLoop, recordReplicaCount,
      getReplicaCount, hres, hcount, hpos]
  constructor
  · rw [hstop]
    have hcache : lookupAssoc
        (setAssoc st.replicaCache (cacheKey kind resource) n)
        (cacheKey kind resource) = some n :=
      lookupAssoc_setAssoc_self _ _ _
    refine ⟨rfl, ?_, ?_⟩
    · simp [kubeStart, hres, hcache, hpos]
    · simp [kubeStart, hres, hcache, hpos, scaleResource,
        lookupAssoc_setAssoc_self]
  · intro hnone
    simp [kubeStart, hres, hnone, scaleResource, lookupAssoc_setAssoc_self]

/-- C5 witness: stopping at three replicas and starting again scales back
to three, and starting with an empty replica cache scales to one. -/
theorem C5_replica_restoration_witness :
    lookupAssoc (kubeStart kenvC5 (kubeStop kenvC5 kstEmpty kworldC5 ["database"]).1
        (kubeStop kenvC5 kstEmpty kworldC5 ["database"]).2.1 ["database"]).2.1.replicas
      (cacheKey "statefulset" "neo4j") = some 3
    ∧ lookupAssoc (kubeStart kenvC5 kstEmpty kworldC5 ["database"]).2.1.replicas
      (cacheKey "statefulset" "neo4j") = some 1 := by
  have h := C5_replica_restoration kenvC5 kstEmpty kworldC5 "database"
    "statefulset" "neo4j" 3 (by decide) (by decide) (by decide)
  exact ⟨h.1.2.2, h.2 (by decide)⟩

/-- C9 counterexample: after Stop (a scaling operation) the replica cache
holds the recorded count, and it still holds it after the following Start,
so the claim that both caches are cleared on every scaling operation is
false for the replica cache. -/
theorem C9_counterexample :
    (kubeStop kenvC9 kstEmpty kworldC9 ["database"]).1.replicaCache
      = [("deployment/infrahub-db", 3)]
    ∧ (kubeStart kenvC9 (kubeStop kenvC9 kstEmpty kworldC9 ["database"]).1
        (kubeStop kenvC9 kstEmpty kworldC9 ["database"]).2.1 ["database"]).1.replicaCache
      = [("deployment/infrahub-db", 3)] := by
  refine ⟨by decide, by decide⟩

/-- C9 (amended): every successful Start and every successful Stop on a
non-empty service list clears the pod cache, while the replica cache is
never cleared: Start leaves it unchanged and Stop only adds or overwrites
recorded counts. -/
theorem C9_cache_invalidation (env : ClusterEnv) (st : KubernetesBackendState)
    (w : KubeWorld) (services : List String) (k : String) :
    ((kubeStart env st w services).2.2 = none →
      (kubeStart env st w services).1.podCache = [])
    ∧ (kubeStart env st w services).1.replicaCache = st.replicaCache
    ∧ ((kubeStop env st w services).2.2 = none → services ≠ [] →
      (kubeStop env st w services).1.podCache = [])
    ∧ ((lookupAssoc st.replicaCache k).isSome = true →
      (lookupAssoc (kubeStop env st w services).1.replicaCache k).isSome = true) := by
  refine ⟨(kubeStart_state env st services w).1, (kubeStart_state env st services w).2,
    ?_, ?_⟩
  · intro hnone hne
    cases services with
    | nil => exact absurd rfl hne
    | cons svc rest =>
      have hs := scaleServicesLoop_state env
        ((svc :: rest).foldl (recordReplicaCount env w) st) 0 (svc :: rest) w
      simp only [kubeStop, scaleServices] at hnone ⊢
      exact hs.1 hnone
  · intro h
    have hrec := recordReplica_mono env w k services st h
    cases services with
    | nil => simpa [kubeStop, scaleServices] using h
    | cons svc rest =>
      have hs := (scaleServicesLoop_state env
        ((svc :: rest).foldl (recordReplicaCount env w) st) 0 (svc :: rest) w).2
      simp only [kubeStop, scaleServices]
      rw [hs]
      exact hrec

/-- C9 witness: a concrete Start clears a populated pod cache and a
concrete Stop keeps the replica cache entry. -/
theorem C9_cache_invalidation_witness :
    (kubeStart kenvC9 kstC9 kworldC9 ["database"]).1.podCache = []
    ∧ (lookupAssoc (kubeStop kenvC9 kstC9 kworldC9 ["database"]).1.replicaCache
        "deployment/infrahub-db").isSome = true := by
  have h := C9_cache_invalidation kenvC9 kstC9 kworldC9 ["database"]
    "deployment/infrahub-db"
  exact ⟨h.1 (by decide), h.2.2.2 (by decide)⟩

/-- C6: backend discovery without an explicit target maps zero discovered
deployments to the soft not-found condition, exactly one to auto-selection,
and two or more to an explicit ambiguous error; with an explicit target
that verifies, detection selects it regardless of what discovery found.
This holds for both the kubernetes and the docker backend. -/
theorem C6_detect_disambiguation (kenv : KubeDetectEnv)
    (denv : DockerDetectEnv) (l projects : List String)
    (ns1 ns2 p1 p2 : String) (rest prest : List String) :
    (kenv.kubectlClientOk = true → kenv.explicitNamespace = "" →
      ListKubernetesNamespaces kenv.listPods = Except.ok [] →
      kubernetesDetect kenv = DetectOutcome.environmentNotFound)
    ∧ (kenv.kubectlClientOk = true → kenv.explicitNamespace = "" →
      ListKubernetesNamespaces kenv.listPods = Except.ok [ns1] →
      kubernetesDetect kenv = DetectOutcome.selected ns1)
    ∧ (kenv.kubectlClientOk = true → kenv.explicitNamespace = "" →
      ListKubernetesNamespaces kenv.listPods = Except.ok (ns1 :: ns2 :: rest) →
      kubernetesDetect kenv = DetectOutcome.ambiguous (ns1 :: ns2 :: rest))
    ∧ (kenv.kubectlClientOk = true → kenv.explicitNamespace ≠ "" →
      ListKubernetesNamespaces kenv.listPods = Except.ok l →
      kenv.verifyNamespace kenv.explicitNamespace = true →
      kubernetesDetect kenv = DetectOutcome.selected kenv.explicitNamespace)
    ∧ (denv.dockerOk = true → denv.explicitProject = "" →
      denv.listProjects = Except.ok [] →
      dockerDetect denv = DetectOutcome.environmentNotFound)
    ∧ (denv.dockerOk = true → denv.explicitProject = "" →
      denv.listProjects = Except.ok [p1] →
      dockerDetect denv = DetectOutcome.selected p1)
    ∧ (denv.dockerOk = true → denv.explicitProject = "" →
      denv.listProjects = Except.ok (p1 :: p2 :: prest) →
      dockerDetect denv = DetectOutcome.ambiguous (p1 :: p2 :: prest))
    ∧ (denv.dockerOk = true → denv.explicitProject ≠ "" →
      denv.listProjects = Except.ok projects →
      projects.contains denv.explicitProject = true →
      dockerDetect denv = DetectOutcome.selected denv.explicitProject) := by
  refine ⟨?_, ?_, ?_, ?_, ?_, ?_, ?_, ?_⟩
  · intro h1 h2 h3
    simp [kubernetesDetect, h1, h2, h3]
  · intro h1 h2 h3
    simp [kubernetesDetect, h1, h2, h3]
  · intro h1 h2 h3
    simp [kubernetesDetect, h1, h2, h3]
  · intro h1 h2 h3 h4
    simp [kubernetesDetect, h1, h2, h3, h4]
  · intro h1 h2 h3
    simp [dockerDetect, h1, h2, h3]
  · intro h1 h2 h3
    simp [dockerDetect, h1, h2, h3]
  · intro h1 h2 h3
    simp [dockerDetect, h1, h2, h3]
  · intro h1 h2 h3 h4
    simp [dockerDetect, h1, h2, h3, h4]
    intro hnot
    exact absurd (by simpa using h4) hnot

/-- C6 witness: concrete detections for the zero, one, many and explicit
cases of both backends. -/
theorem C6_detect_disambiguation_witness :
    kubernetesDetect kenvZero = DetectOutcome.environmentNotFound
    ∧ kubernetesDetect kenvOne = DetectOutcome.selected "infrahub"
    ∧ kubernetesDetect kenvMany = DetectOutcome.ambiguous ["alpha", "beta"]
    ∧ kubernetesDetect kenvExpl = DetectOutcome.selected "infrahub"
    ∧ dockerDetect denvMany = DetectOutcome.ambiguous ["p1", "p2"]
    ∧ dockerDetect denvExpl = DetectOutcome.selected "proj" := by
  refine ⟨?_, ?_, ?_, ?_, ?_, ?_⟩
  · exact (C6_detect_disambiguation kenvZero denvMany [] [] "" "" "" ""
      [] []).1 rfl rfl rfl
  · exact (C6_detect_disambiguation kenvOne denvMany [] [] "infrahub" "" ""
      "" [] []).2.1 rfl rfl rfl
  · exact (C6_detect_disambiguation kenvMany denvMany [] [] "alpha" "beta"
      "" "" [] []).2.2.1 rfl rfl rfl
  · exact (C6_detect_disambiguation kenvExpl denvMany ["alpha", "beta"] []
      "" "" "" "" [] []).2.2.2.1 rfl (by decide) rfl rfl
  · exact (C6_detect_disambiguation kenvZero denvMany [] [] "" "" "p1" "p2"
      [] []).2.2.2.2.2.2.1 rfl rfl rfl
  · exact (C6_detect_disambiguation kenvZero denvExpl [] ["other", "proj"]
      "" "" "" "" [] []).2.2.2.2.2.2.2 rfl (by decide) rfl (by decide)

/-- C8: in the community freeze protocol of both backup and restore, once
the process has been frozen the SIGCONT resume is attempted on every exit
path, and when the capture or restore body succeeded but the resume
delivery fails, the operation returns the resume-failure error. -/
theorem C8_resume_guarantee (env : CommunityEnv) (migrate : Bool)
    (hpid : env.pidReadOk = true) (hfreeze : env.freezeOk = true) :
    CommunityEvent.attemptedResume ∈ (backupNeo4jCommunity env).1
    ∧ CommunityEvent.attemptedResume ∈ (restoreNeo4jCommunity env migrate).1
    ∧ (env.mkdirOk = true → env.dumpOk = true → env.copyOk = true →
        env.contDeliveryOk = false →
        (backupNeo4jCommunity env).2 = some CommunityError.resumeFailed)
    ∧ (env.loadOk = true → (migrate = true → env.migrateOk = true) →
        env.contDeliveryOk = false →
        (restoreNeo4jCommunity env migrate).2
          = some CommunityError.resumeFailed) := by
  obtain ⟨pid, freeze, mkdir, dump, copy, load, mig, cont⟩ := env
  simp only at hpid hfreeze
  subst hpid hfreeze
  cases migrate <;> cases mkdir <;> cases dump <;> cases copy <;>
    cases load <;> cases mig <;> cases cont <;>
    simp [backupNeo4jCommunity, restoreNeo4jCommunity,
      communityDeferredCleanup]

/-- C8 witness: a fully successful capture and restore with a failing
SIGCONT delivery still attempts the resume and reports the resume
failure. -/
theorem C8_resume_guarantee_witness :
    CommunityEvent.attemptedResume ∈ (backupNeo4jCommunity cenvResumeFail).1
    ∧ (backupNeo4jCommunity cenvResumeFail).2
        = some CommunityError.resumeFailed
    ∧ (restoreNeo4jCommunity cenvResumeFail true).2
        = some CommunityError.resumeFailed := by
  have h := C8_resume_guarantee cenvResumeFail true rfl rfl
  exact ⟨h.1, h.2.2.1 rfl rfl rfl rfl, h.2.2.2 rfl (fun _ => rfl) rfl⟩
